import Mathlib

/-!
Shallow embedding of the streaming face-capture session controllers of the
face-recognition-nextjs repository.

The embedding covers the event-handler logic of
`src/components/RealTimeFaceRegistration.tsx` (namespace `FaceReg`),
the message and close handlers of
`src/components/RealTimeFaceVerification.tsx` (namespace `FaceVerif`),
and the `ws.onmessage` handler of the older variant `src/unnamed/part_004`
(namespace `Part004`).

Modelling conventions:
* Each WebSocket / timer callback becomes a pure function on an explicit
  state record; `setXxx(v)` becomes a field update.  State updates are given
  immediate (sequential) semantics: a `setXxx` is visible to the next read
  inside the same handler run.
* Timers are modelled by "armed" flags plus explicit tick events; a tick
  event is a no-op unless its timer is armed (after `clearInterval` /
  `clearTimeout` no callback fires).
* At most one WebSocket object is modelled at a time (`wsLive` = a socket
  object exists whose handlers can still fire; `wsRefSet` = `wsRef.current`
  is non-null; `wsReady` = its `readyState`).  When `connectWebSocket`
  replaces an existing socket, the replaced socket's own close-completion
  event is not modelled.
* `ws.send` is observable on the transport only when `readyState` is OPEN;
  on a CONNECTING socket it throws (in `RealTimeFaceRegistration.tsx` the
  surrounding `try { send; close } catch` swallows the exception and skips
  the `close` call), and on a CLOSING/CLOSED socket the data is discarded
  and `close` is a no-op.
* Numeric wire fields (scores, processing times, timestamps) are embedded
  as `Int`; absent (`undefined`) fields as `Option`.
* `ws.onclose` reads `success` and `retryCount` from the closure of the
  `connectWebSocket` instance that created its socket, not from current
  state; the reconnect `setTimeout` calls back into that same instance, so
  the captured values stay frozen along a reconnect chain.  The state
  carries them as `capSuccess` / `capRetryCount`: `handleStart` (a fresh
  invocation from the current render) captures the current values, a
  reconnect keeps the old ones, and the close-event dispatch substitutes
  them for the handler's reads (`onclose` writes neither field, so the
  real fields are restored after the run).
* Purely presentational state never written by the modelled handlers
  (`isHovered`, and in the registration component `processedCount`, whose
  only writes are in `handleRestart`) is omitted.
-/

set_option autoImplicit false

namespace FaceStream

/-- The `readyState` of a WebSocket object. -/
inductive WsReady
  | connecting
  | opened
  | closing
  | closed
deriving DecidableEq, Repr

/-- The `connectionState` React state of the components. -/
inductive ConnState
  | disconnected
  | connecting
  | connected
  | reconnecting
deriving DecidableEq, Repr

/-- The tagged union of inbound server messages (`message.type` plus the
fields the handlers read).  Both components switch over the same wire
vocabulary; each ignores the variants it has no case for. -/
inductive ServerMsg
  | connected (required_frames : Option Nat)
  | frame_processed (success : Bool) (frames_collected : Nat)
      (quality_score antispoofing_score face_confidence similarity_score : Option Int)
      (is_match : Option Bool) (processing_time comparison_time : Option Int)
      (attempts_remaining : Option Nat) (message : String)
  | spoofing_detected (message : String) (antispoofing_score : Option Int)
      (can_retry : Option Bool)
  | registration_complete
  | verification_complete (verified : Bool)
      (similarity_score max_similarity_score quality_score antispoofing_score
        match_ratio confidence_score : Option Int)
  | verification_restarted (message : String)
  | error (message : String) (can_retry : Option Bool)
  | pong (timestamp : Option Int)
  | heartbeat
  | timeout_warning (message : String) (can_retry : Option Bool)
  | unknown
deriving DecidableEq, Repr

/-- A raw inbound payload: either `JSON.parse` succeeds and yields a decoded
message, or it throws (`malformed`). -/
inductive Payload
  | malformed
  | parsed (m : ServerMsg)
deriving DecidableEq, Repr

/-- Observable effects of a handler run: messages actually carried by the
transport, socket close calls that take effect, media-stream release, the
creation of a connection attempt, and the session-level callbacks. -/
inductive Out
  | sentFrame
  | sentPing
  | sentStop
  | closeCall (code : Nat)
  | releasedStream
  | openedAttempt
  | cbSuccess
  | cbError (message : String)
deriving DecidableEq, Repr

/-- Environment / UI events driving the registration component. -/
inductive Ev
  | startCall
  | wsOpen
  | msg (now : Int) (p : Payload)
  | wsErr
  | close (code : Nat)
  | captureTick (frameOk : Bool)
  | heartbeatTick
  | reconnectFire
  | connTimeoutFire
  | stopCall
deriving DecidableEq, Repr

/-- Count of `cbError` callbacks in an output list. -/
def countCbError (l : List Out) : Nat :=
  l.countP fun o => match o with | .cbError _ => true | _ => false

/-- Count of `cbSuccess` callbacks in an output list. -/
def countCbSuccess (l : List Out) : Nat :=
  l.countP fun o => match o with | .cbSuccess => true | _ => false

/-- Count of connection attempts opened in an output list. -/
def countOpenedAttempt (l : List Out) : Nat :=
  l.countP fun o => match o with | .openedAttempt => true | _ => false

/-- Does a payload decode to the `connected` handshake event? -/
def isConnectedMsg (p : Payload) : Bool :=
  match p with
  | .parsed (.connected _) => true
  | _ => false

/-- Does a payload decode to the `registration_complete` event? -/
def isCompleteMsg (p : Payload) : Bool :=
  match p with
  | .parsed .registration_complete => true
  | _ => false

end FaceStream

namespace FaceReg

open FaceStream

/-- `MAX_RETRIES` of `RealTimeFaceRegistration.tsx`. -/
def MAX_RETRIES : Nat := 3

/-- `RECONNECT_DELAY` (ms). -/
def RECONNECT_DELAY : Nat := 3000

/-- `FRAME_CAPTURE_INTERVAL` (ms). -/
def FRAME_CAPTURE_INTERVAL : Nat := 1000

/-- `HEARTBEAT_INTERVAL` (ms). -/
def HEARTBEAT_INTERVAL : Nat := 20000

/-- `CONNECTION_TIMEOUT` (ms). -/
def CONNECTION_TIMEOUT : Nat := 15000

/-- State of the `RealTimeFaceRegistration` component: the mutable refs
(socket, timers, media stream) and the React state the handlers write.
`handshake` is a ghost field recording whether the `connected` server event
has been received on the current socket.  `capSuccess` / `capRetryCount`
are the `success` / `retryCount` values captured by the closure of the
`connectWebSocket` instance that created the current socket (and its
reconnect chain): `ws.onclose` reads these, not the current fields. -/
structure St where
  wsLive : Bool
  wsRefSet : Bool
  wsReady : WsReady
  handshake : Bool
  capSuccess : Bool
  capRetryCount : Nat
  captureArmed : Bool
  heartbeatArmed : Bool
  reconnectPending : Bool
  connTimeoutArmed : Bool
  streamLive : Bool
  isStreaming : Bool
  isConnected : Bool
  connectionState : ConnState
  status : String
  framesCollected : Nat
  framesSent : Nat
  frameCount : Nat
  requiredFrames : Nat
  qualityScore : Option Int
  antispoofingScore : Option Int
  faceConfidence : Option Int
  processingTime : Option Int
  networkLatency : Option Int
  retryCount : Nat
  success : Bool
  sessionData : Bool
  error : Option String
deriving DecidableEq, Repr

/-- The component's initial state (the `useState` defaults; no socket, no
stream, no timers). -/
def regInit : St :=
  { wsLive := false, wsRefSet := false, wsReady := .closed, handshake := false
    capSuccess := false, capRetryCount := 0
    captureArmed := false, heartbeatArmed := false, reconnectPending := false
    connTimeoutArmed := false, streamLive := false
    isStreaming := false, isConnected := false, connectionState := .disconnected
    status := "Ready to start face registration"
    framesCollected := 0, framesSent := 0, frameCount := 0, requiredFrames := 3
    qualityScore := none, antispoofingScore := none, faceConfidence := none
    processingTime := none, networkLatency := none
    retryCount := 0, success := false, sessionData := false, error := none }

/-- `stopStreaming`: clears the capture interval, the heartbeat and any
pending reconnect timeout; if `wsRef.current` is set, sends a best-effort
`stop` and closes with code 1000 (on a CONNECTING socket the `send` throws,
the `catch` swallows it and the `close` call is skipped; on a
CLOSING/CLOSED socket both are no-ops), then nulls the ref; releases the
media stream; resets the streaming/connection state. -/
def stopStreaming (s : St) : St × List Out :=
  ({ s with captureArmed := false, heartbeatArmed := false, reconnectPending := false
            wsRefSet := false
            wsReady := if s.wsRefSet = true ∧ s.wsReady = .opened then .closing else s.wsReady
            streamLive := false
            isStreaming := false, isConnected := false, connectionState := .disconnected },
   (if s.wsRefSet = true ∧ s.wsReady = .opened then [Out.sentStop, Out.closeCall 1000] else [])
     ++ (if s.streamLive = true then [Out.releasedStream] else []))

/-- `connectWebSocket` up to the point where the handlers are installed:
sets `connecting`, clears the error, creates a fresh socket (CONNECTING)
stored in `wsRef`, and arms the connection timeout.  A previously stored
socket is closed first; its own close-completion event is not modelled. -/
def connectWebSocket (s : St) : St × List Out :=
  ({ s with connectionState := .connecting, error := none
            wsLive := true, wsRefSet := true, wsReady := .connecting
            handshake := false, connTimeoutArmed := true },
   [Out.openedAttempt])

/-- `ws.onopen` (the socket becomes OPEN): clears the connection timeout,
marks connected, resets `retryCount` to 0 and starts the heartbeat. -/
def regOnOpen (s : St) : St :=
  { s with connTimeoutArmed := false, wsReady := .opened
           isConnected := true, connectionState := .connected
           status := "Connected. Initializing registration..."
           retryCount := 0, heartbeatArmed := true }

/-- `ws.onmessage`: `JSON.parse` plus the `switch` on `message.type`, all
inside `try { ... } catch { console.error }` — a malformed payload or an
unknown type leaves the state unchanged. -/
def regOnMessage (s : St) (now : Int) (p : Payload) : St × List Out :=
  match p with
  | .malformed => (s, [])
  | .parsed m =>
    match m with
    | .connected rf =>
        let n : Nat := match rf with | some k => if k = 0 then 3 else k | none => 3
        ({ s with requiredFrames := n
                  status := "Registration ready. Please look at the camera. Need "
                    ++ toString n ++ " good frames."
                  isStreaming := true, captureArmed := true, handshake := true }, [])
    | .frame_processed ok fc qs asp fconf _ss _im pt _ct _ar m =>
        match ok with
        | true =>
            ({ s with framesCollected := fc, qualityScore := qs, antispoofingScore := asp
                      faceConfidence := fconf, processingTime := pt, status := m
                      error := none }, [])
        | false => ({ s with status := m, processingTime := pt }, [])
    | .spoofing_detected m asp _cr =>
        ({ s with error := some m
                  status := "⚠️ Spoofing detected! Please use your real face."
                  antispoofingScore := asp }, [])
    | .registration_complete =>
        let s1 := { s with success := true, sessionData := true
                           status := "✅ Face registration completed successfully!" }
        let r := stopStreaming s1
        (r.1, r.2 ++ [Out.cbSuccess])
    | .error m _cr =>
        ({ s with error := some m, status := "❌ Error: " ++ m }, [Out.cbError m])
    | .pong ts =>
        match ts with
        | some t =>
            if t = 0 then (s, [])
            else ({ s with networkLatency := some (now - t) }, [])
        | none => (s, [])
    | .heartbeat => (s, [])
    | .timeout_warning m _cr =>
        ({ s with error := some m, status := "⚠️ Connection issue detected" }, [])
    | _ => (s, [])

/-- `ws.onerror`: clears the connection timeout, records a connection
error; no retry decision is made here (the close event is awaited). -/
def regOnError (s : St) : St :=
  { s with connTimeoutArmed := false
           error := some "Connection error occurred"
           connectionState := .disconnected }

/-- The unconditional prefix of `ws.onclose`: clears the connection
timeout, marks disconnected/not streaming, stops the heartbeat (the
capture interval is NOT cleared here); the socket object is now closed. -/
def regCloseCommon (s : St) : St :=
  { s with connTimeoutArmed := false, isConnected := false, isStreaming := false
           heartbeatArmed := false, wsLive := false, wsReady := WsReady.closed
           handshake := false }

/-- `ws.onclose`: after the common prefix, code 4004 is terminal, and any
other code — including 1000 — schedules a reconnect when `success` is
false and `retryCount < MAX_RETRIES`. -/
def regOnClose (s : St) (code : Nat) : St × List Out :=
  if code = 4004 then
    ({ regCloseCommon s with error := some "User not found", status := "❌ User not found"
                             connectionState := .disconnected }, [])
  else if s.success = false ∧ s.retryCount < MAX_RETRIES then
    ({ regCloseCommon s with connectionState := .reconnecting
                             status := "Connection lost. Reconnecting... ("
                               ++ toString (s.retryCount + 1) ++ "/"
                               ++ toString MAX_RETRIES ++ ")"
                             reconnectPending := true }, [])
  else
    ({ regCloseCommon s with connectionState := .disconnected
                             status := if s.success = false then
                                 "Connection failed. Please try again."
                               else s.status }, [])

/-- One tick of the capture interval (`captureAndSendFrame`): a frame is
encoded and sent only when the socket ref is set, the socket is OPEN and
the video/canvas are usable (`frameOk`); otherwise the tick is a no-op. -/
def regCaptureTick (s : St) (frameOk : Bool) : St × List Out :=
  if s.wsRefSet = true ∧ s.wsReady = .opened ∧ frameOk = true then
    ({ s with framesSent := s.framesSent + 1, frameCount := s.frameCount + 1 },
     [Out.sentFrame])
  else (s, [])

/-- One tick of the heartbeat interval: sends a `ping` when the socket ref
is set and the socket is OPEN. -/
def regHeartbeatTick (s : St) : St × List Out :=
  if s.wsRefSet = true ∧ s.wsReady = .opened then (s, [Out.sentPing]) else (s, [])

/-- The reconnect timeout fires: increments `retryCount` and calls
`connectWebSocket`. -/
def regReconnectFire (s : St) : St × List Out :=
  connectWebSocket { s with reconnectPending := false, retryCount := s.retryCount + 1 }

/-- The connection timeout fires: if the socket is still CONNECTING it is
closed (failing the connection; its close event arrives later) and a
timeout error is recorded. -/
def regConnTimeout (s : St) : St :=
  if s.wsReady = .connecting then
    { s with connTimeoutArmed := false, wsReady := .closing
             error := some "Connection timeout", connectionState := .disconnected }
  else { s with connTimeoutArmed := false }

/-- `handleStart` on the success path: the camera stream is acquired, then
the current render's `connectWebSocket` instance runs — its closure
captures the current `success` / `retryCount` values. -/
def handleStart (s : St) : St × List Out :=
  connectWebSocket { s with streamLive := true
                            capSuccess := s.success, capRetryCount := s.retryCount }

/-- `handleStop`: `stopStreaming` then the stopped status text. -/
def handleStop (s : St) : St × List Out :=
  let r := stopStreaming s
  ({ r.1 with status := "Registration stopped" }, r.2)

/-- One environment event.  Socket events fire only while the socket object
is live (and, for open/message, in the matching ready state); timer ticks
fire only while their timer is armed.  The close dispatch substitutes the
closure-captured `capSuccess` / `capRetryCount` for the handler's reads of
`success` / `retryCount`; since `regOnClose` writes neither field, the
real fields are restored unchanged afterwards. -/
def step (s : St) (e : Ev) : St × List Out :=
  match e with
  | .startCall => handleStart s
  | .wsOpen =>
      if s.wsLive = true ∧ s.wsReady = .connecting then (regOnOpen s, []) else (s, [])
  | .msg now p =>
      if s.wsLive = true ∧ s.wsReady = .opened then regOnMessage s now p else (s, [])
  | .wsErr => if s.wsLive = true then (regOnError s, []) else (s, [])
  | .close code =>
      if s.wsLive = true then
        let r := regOnClose { s with success := s.capSuccess
                                     retryCount := s.capRetryCount } code
        ({ r.1 with success := s.success, retryCount := s.retryCount }, r.2)
      else (s, [])
  | .captureTick fok => if s.captureArmed = true then regCaptureTick s fok else (s, [])
  | .heartbeatTick => if s.heartbeatArmed = true then regHeartbeatTick s else (s, [])
  | .reconnectFire => if s.reconnectPending = true then regReconnectFire s else (s, [])
  | .connTimeoutFire =>
      if s.connTimeoutArmed = true then (regConnTimeout s, []) else (s, [])
  | .stopCall => handleStop s

/-- Run a sequence of events, accumulating the observable outputs. -/
def run (s : St) : List Ev → St × List Out
  | [] => (s, [])
  | e :: es =>
      let r := step s e
      let r2 := run r.1 es
      (r2.1, r.2 ++ r2.2)

end FaceReg

namespace FaceVerif

open FaceStream

/-- `MAX_RETRIES` of `RealTimeFaceVerification.tsx`. -/
def MAX_RETRIES : Nat := 3

/-- State of the `RealTimeFaceVerification` component (refs plus the React
state written by the modelled handlers). -/
structure VSt where
  wsRefSet : Bool
  wsReady : WsReady
  captureArmed : Bool
  heartbeatArmed : Bool
  reconnectPending : Bool
  connTimeoutArmed : Bool
  streamLive : Bool
  isStreaming : Bool
  isConnected : Bool
  connectionState : ConnState
  status : String
  framesCollected : Nat
  framesSent : Nat
  frameCount : Nat
  processedCount : Nat
  requiredFrames : Nat
  qualityScore : Option Int
  similarityScore : Option Int
  antispoofingScore : Option Int
  isMatch : Option Bool
  processingTime : Option Int
  comparisonTime : Option Int
  attemptsRemaining : Nat
  networkLatency : Option Int
  canRetry : Bool
  maxSimilarity : Option Int
  matchRatio : Option Int
  confidenceScore : Option Int
  retryCount : Nat
  success : Bool
  verificationResult : Bool
  error : Option String
deriving DecidableEq, Repr

/-- The verification component's initial state (`useState` defaults). -/
def verifInit : VSt :=
  { wsRefSet := false, wsReady := .closed
    captureArmed := false, heartbeatArmed := false, reconnectPending := false
    connTimeoutArmed := false, streamLive := false
    isStreaming := false, isConnected := false, connectionState := .disconnected
    status := "Ready to start verification"
    framesCollected := 0, framesSent := 0, frameCount := 0, processedCount := 0
    requiredFrames := 2
    qualityScore := none, similarityScore := none, antispoofingScore := none
    isMatch := none, processingTime := none, comparisonTime := none
    attemptsRemaining := 5, networkLatency := none, canRetry := true
    maxSimilarity := none, matchRatio := none, confidenceScore := none
    retryCount := 0, success := false, verificationResult := false, error := none }

/-- `stopStreaming` of the verification component (same shape as the
registration one). -/
def verifStop (s : VSt) : VSt × List Out :=
  ({ s with captureArmed := false, heartbeatArmed := false, reconnectPending := false
            wsRefSet := false
            wsReady := if s.wsRefSet = true ∧ s.wsReady = .opened then .closing else s.wsReady
            streamLive := false
            isStreaming := false, isConnected := false, connectionState := .disconnected },
   (if s.wsRefSet = true ∧ s.wsReady = .opened then [Out.sentStop, Out.closeCall 1000] else [])
     ++ (if s.streamLive = true then [Out.releasedStream] else []))

/-- `message.can_retry !== false`. -/
def canRetryOf (cr : Option Bool) : Bool :=
  match cr with
  | some false => false
  | _ => true

/-- The verification component's `ws.onmessage` switch (inside
`try { ... } catch`; there is no `default` case, so unknown types fall
through as no-ops). -/
def verifOnMessage (s : VSt) (now : Int) (p : Payload) : VSt × List Out :=
  match p with
  | .malformed => (s, [])
  | .parsed m =>
    match m with
    | .connected rf =>
        let n : Nat := match rf with | some k => if k = 0 then 2 else k | none => 2
        ({ s with requiredFrames := n
                  status := "Verification ready. Please look at the camera. Need "
                    ++ toString n ++ " frames."
                  isStreaming := true, captureArmed := true }, [])
    | .frame_processed ok fc qs asp _fconf ss im pt ct ar m =>
        match ok with
        | true =>
            let newMax : Option Int :=
              match ss, s.maxSimilarity with
              | some v, none => if v = 0 then s.maxSimilarity else some v
              | some v, some mx => if v ≠ 0 ∧ v > mx then some v else s.maxSimilarity
              | none, _ => s.maxSimilarity
            ({ s with framesCollected := fc, qualityScore := qs, antispoofingScore := asp
                      similarityScore := ss, isMatch := im, processingTime := pt
                      comparisonTime := ct, status := m, error := none
                      maxSimilarity := newMax
                      processedCount := s.processedCount + 1 }, [])
        | false =>
            ({ s with status := m, processingTime := pt
                      attemptsRemaining := ar.getD 0
                      processedCount := s.processedCount + 1 }, [])
    | .spoofing_detected m asp cr =>
        ({ s with error := some m
                  status := "⚠️ Please use your real face for verification"
                  antispoofingScore := asp, canRetry := canRetryOf cr }, [])
    | .verification_complete verified ss mss qs asp mr cs =>
        let s1 := { s with success := true, verificationResult := true
                           status := if verified then "✅ Identity verified successfully!"
                                     else "❌ Identity verification failed"
                           similarityScore := ss, maxSimilarity := mss
                           qualityScore := qs, antispoofingScore := asp
                           matchRatio := mr, confidenceScore := cs }
        let r := verifStop s1
        (r.1, r.2 ++ [Out.cbSuccess])
    | .verification_restarted m =>
        ({ s with framesCollected := 0, framesSent := 0, frameCount := 0
                  processedCount := 0
                  qualityScore := none, similarityScore := none, antispoofingScore := none
                  isMatch := none, maxSimilarity := none, matchRatio := none
                  confidenceScore := none, error := none, status := m }, [])
    | .error m cr =>
        ({ s with error := some m, status := "❌ Error: " ++ m
                  canRetry := canRetryOf cr }, [Out.cbError m])
    | .pong ts =>
        match ts with
        | some t =>
            if t = 0 then (s, [])
            else ({ s with networkLatency := some (now - t) }, [])
        | none => (s, [])
    | .timeout_warning m cr =>
        ({ s with error := some m, status := "⚠️ Connection issue detected"
                  canRetry := canRetryOf cr }, [])
    | _ => (s, [])

/-- The unconditional prefix of the verification `ws.onclose`. -/
def verifCloseCommon (s : VSt) : VSt :=
  { s with connTimeoutArmed := false, isConnected := false, isStreaming := false
           heartbeatArmed := false }

/-- The verification component's `ws.onclose`: codes 4004 and 4003 are
terminal (no reconnect is scheduled, `retryCount` untouched); any other
code — including 1000 — schedules a reconnect when `success` is false and
`retryCount < MAX_RETRIES`. -/
def verifOnClose (s : VSt) (code : Nat) : VSt × List Out :=
  if code = 4004 then
    ({ verifCloseCommon s with error := some "User not found", status := "❌ User not found"
                               connectionState := .disconnected }, [])
  else if code = 4003 then
    ({ verifCloseCommon s with
         error := some "No face registration found. Please register your face first."
         status := "❌ Face not registered"
         connectionState := .disconnected }, [])
  else if s.success = false ∧ s.retryCount < MAX_RETRIES then
    ({ verifCloseCommon s with
         connectionState := .reconnecting
         status := "Connection lost. Reconnecting... ("
           ++ toString (s.retryCount + 1) ++ "/" ++ toString MAX_RETRIES ++ ")"
         reconnectPending := true }, [])
  else
    ({ verifCloseCommon s with
         connectionState := .disconnected
         status := if s.success = false then "Connection failed. Please try again."
                   else s.status }, [])

end FaceVerif

namespace Part004

open FaceStream

/-- State of the older `src/unnamed/part_004` registration variant (it has
no heartbeat, no reconnect logic and no retry counter). -/
structure St4 where
  wsRefSet : Bool
  wsReady : WsReady
  captureArmed : Bool
  streamLive : Bool
  isStreaming : Bool
  isConnected : Bool
  framesCollected : Nat
  requiredFrames : Option Nat
  qualityScore : Option Int
  antispoofingScore : Option Int
  status : String
  error : Option String
  success : Bool
  sessionData : Bool
deriving DecidableEq, Repr

/-- Initial state of the part_004 variant. -/
def st4Init : St4 :=
  { wsRefSet := false, wsReady := .closed
    captureArmed := false, streamLive := false
    isStreaming := false, isConnected := false
    framesCollected := 0, requiredFrames := some 10
    qualityScore := none, antispoofingScore := none
    status := "Ready to start registration"
    error := none, success := false, sessionData := false }

/-- Render an optional numeric wire field the way a JS template literal
does (`undefined` prints as "undefined"). -/
def optNatStr (v : Option Nat) : String :=
  match v with
  | some k => toString k
  | none => "undefined"

/-- `stopStreaming` of the part_004 variant, as invoked from the
`registration_complete` case (socket OPEN).  Unlike the main component it
has no try/catch around `send`/`close`. -/
def part004Stop (s : St4) : St4 × List Out :=
  ({ s with captureArmed := false, wsRefSet := false
            wsReady := if s.wsRefSet = true ∧ s.wsReady = .opened then .closing else s.wsReady
            streamLive := false, isStreaming := false, isConnected := false },
   (if s.wsRefSet = true ∧ s.wsReady = .opened then [Out.sentStop, Out.closeCall 1000] else [])
     ++ (if s.streamLive = true then [Out.releasedStream] else []))

/-- The part_004 `ws.onmessage` handler.  There is NO surrounding
try/catch: `JSON.parse` of a malformed payload throws past the handler
boundary, modelled as `Except.error`.  Unknown types fall through the
switch as no-ops. -/
def part004OnMessage (s : St4) (p : Payload) : Except Unit (St4 × List Out) :=
  match p with
  | .malformed => .error ()
  | .parsed m =>
    .ok (match m with
    | .connected rf =>
        ({ s with requiredFrames := rf
                  status := "Registration ready. Please look at the camera. Need "
                    ++ optNatStr rf ++ " good frames."
                  isStreaming := true, captureArmed := true }, [])
    | .frame_processed ok fc qs asp _fconf _ss _im _pt _ct _ar m =>
        match ok with
        | true =>
            ({ s with framesCollected := fc, qualityScore := qs, antispoofingScore := asp
                      status := m, error := none }, [])
        | false => ({ s with status := m }, [])
    | .spoofing_detected m asp _cr =>
        ({ s with error := some m
                  status := "⚠️ Spoofing detected! Please use your real face."
                  antispoofingScore := asp }, [])
    | .registration_complete =>
        let s1 := { s with success := true, sessionData := true
                           status := "✅ Face registration completed successfully!" }
        let r := part004Stop s1
        (r.1, r.2 ++ [Out.cbSuccess])
    | .error m _cr =>
        ({ s with error := some m, status := "❌ Error: " ++ m }, [Out.cbError m])
    | _ => (s, []))

end Part004

namespace FaceReg

open FaceStream

/-- Event trace for claim C1: two `error` server events on one session. -/
def trTwoErrors : List Ev :=
  [.startCall, .wsOpen,
   .msg 0 (.parsed (.error "Face processing failed" none)),
   .msg 0 (.parsed (.error "Face processing failed" none))]

/-- Event trace for claim C2, up to and including the user stop. -/
def trStop : List Ev :=
  [.startCall, .wsOpen, .msg 0 (.parsed (.connected (some 3))), .stopCall]

/-- Events delivered after the stop of `trStop`: the stopped socket's close
completion, the reconnect it schedules, the new socket opening, and one
heartbeat tick. -/
def trAfterStop : List Ev :=
  [.close 1000, .reconnectFire, .wsOpen, .heartbeatTick]

/-- Event trace for claim C3: three consecutive transient closures, each
followed by the scheduled reconnect firing. -/
def trThreeClosures : List Ev :=
  [.startCall, .close 1006, .reconnectFire, .close 1006, .reconnectFire,
   .close 1006, .reconnectFire]

/-- The reconnect chain of claim C3: a start whose connection never opens,
followed by `n` rounds of transient closure (code 1006) plus the scheduled
reconnect firing.  Every socket of the chain is created by the original
`connectWebSocket` instance, so the captured `success` / `retryCount` stay
at their start-time values. -/
def reconnectChain : Nat → List Ev
  | 0 => [.startCall]
  | n + 1 => reconnectChain n ++ [.close 1006, .reconnectFire]

end FaceReg

namespace FaceReg

open FaceStream

theorem run_append (s : St) (t1 t2 : List Ev) :
    run s (t1 ++ t2) =
      ((run (run s t1).1 t2).1, (run s t1).2 ++ (run (run s t1).1 t2).2) := by
  induction t1 generalizing s with
  | nil => simp [run]
  | cons e es ih => simp [run, ih, List.append_assoc]

theorem round_eq (s : St) (h1 : s.wsLive = true) (h2 : s.capSuccess = false)
    (h3 : s.capRetryCount = 0) :
    run s [Ev.close 1006, Ev.reconnectFire] =
      ({ s with wsLive := true, wsRefSet := true, wsReady := .connecting, handshake := false
                heartbeatArmed := false, reconnectPending := false, connTimeoutArmed := true
                isStreaming := false, isConnected := false
                connectionState := .connecting
                status := "Connection lost. Reconnecting... (" ++ toString ((0 : Nat) + 1)
                  ++ "/" ++ toString MAX_RETRIES ++ ")"
                retryCount := s.retryCount + 1, error := none },
       [Out.openedAttempt]) := by
  cases s
  subst h1 h2 h3
  rfl

theorem reconnecting_status_eq :
    "Connection lost. Reconnecting... (" ++ toString ((0 : Nat) + 1) ++ "/"
      ++ toString MAX_RETRIES ++ ")" = "Connection lost. Reconnecting... (1/3)" :=
  rfl

theorem chain_spec (n : Nat) :
    (run regInit (reconnectChain n)).1.wsLive = true ∧
    (run regInit (reconnectChain n)).1.capSuccess = false ∧
    (run regInit (reconnectChain n)).1.capRetryCount = 0 ∧
    (run regInit (reconnectChain n)).1.retryCount = n ∧
    countOpenedAttempt (run regInit (reconnectChain n)).2 = n + 1 ∧
    countCbError (run regInit (reconnectChain n)).2 = 0 := by
  induction n with
  | zero => decide
  | succ n ih =>
    obtain ⟨h1, h2, h3, h4, h5, h6⟩ := ih
    rw [reconnectChain, run_append, round_eq _ h1 h2 h3]
    refine ⟨rfl, h2, h3, ?_, ?_, ?_⟩
    · show (run regInit (reconnectChain n)).1.retryCount + 1 = n + 1
      rw [h4]
    · show countOpenedAttempt
        ((run regInit (reconnectChain n)).2 ++ [Out.openedAttempt]) = n + 1 + 1
      simp only [countOpenedAttempt, List.countP_append] at h5 ⊢
      rw [h5]
      rfl
    · show countCbError
        ((run regInit (reconnectChain n)).2 ++ [Out.openedAttempt]) = 0
      simp only [countCbError, List.countP_append] at h6 ⊢
      rw [h6]
      rfl

end FaceReg

open FaceStream

/-- Claim C1 counterexample: on the session trace start / open / two `error`
server events, the `onError` callback fires twice — the code forwards every
`error` event to the caller with no exactly-once discipline, falsifying
"never more than one invocation of either" terminal callback. -/
theorem c1_counterexample :
    countCbError (FaceReg.run FaceReg.regInit FaceReg.trTwoErrors).2 = 2 := by
  decide

/-- Claim C1 (amended): the registration component forwards terminal
callbacks per server event, not per session: each `error` event fires
`onError` exactly once, and each `registration_complete` event fires
`onSuccess` exactly once (and no `onError`); no session-level exactly-once
guarantee exists. -/
theorem c1_terminal_callbacks_per_event :
    (∀ (s : FaceReg.St) (now : Int) (m : String) (cr : Option Bool),
        (FaceReg.regOnMessage s now (.parsed (.error m cr))).2 = [Out.cbError m]) ∧
    (∀ (s : FaceReg.St) (now : Int),
        countCbSuccess (FaceReg.regOnMessage s now (.parsed .registration_complete)).2 = 1 ∧
        countCbError (FaceReg.regOnMessage s now (.parsed .registration_complete)).2 = 0) := by
  refine ⟨fun s now m cr => rfl, fun s now => ?_⟩
  simp only [FaceReg.regOnMessage, FaceReg.stopStreaming, countCbSuccess, countCbError,
    List.countP_append]
  split_ifs <;> decide

/-- Claim C2 (code bug): after `stopStreaming` resolves (all timers
cleared, socket ref nulled, stream released), the stopped socket's own
close event (code 1000) still enters `ws.onclose`, which schedules a
reconnect because it only checks `success` and `retryCount`; the reconnect
opens a fresh socket, `ws.onopen` re-arms the heartbeat, and a ping is
sent on the transport — activity after teardown, contradicting the claim
and the component's own "Registration stopped" status. -/
theorem c2_send_after_stop_bug :
    (FaceReg.run FaceReg.regInit FaceReg.trStop).1.captureArmed = false ∧
    (FaceReg.run FaceReg.regInit FaceReg.trStop).1.heartbeatArmed = false ∧
    (FaceReg.run FaceReg.regInit FaceReg.trStop).1.reconnectPending = false ∧
    (FaceReg.run FaceReg.regInit FaceReg.trStop).1.wsRefSet = false ∧
    Out.sentPing ∈
      (FaceReg.run (FaceReg.run FaceReg.regInit FaceReg.trStop).1 FaceReg.trAfterStop).2 := by
  decide

/-- Claim C3 counterexample: after exactly `MAX_RETRIES = 3` consecutive
transient closures the component has opened a 4th connection attempt and
reported no "retries exhausted" terminal error — the claim's "never opens
an (maxAttempts+1)-th ConnectionAttempt" is false on the code. -/
theorem c3_counterexample :
    countOpenedAttempt (FaceReg.run FaceReg.regInit FaceReg.trThreeClosures).2 = 4 ∧
    countCbError (FaceReg.run FaceReg.regInit FaceReg.trThreeClosures).2 = 0 := by
  decide

/-- Claim C3 (amended): the claim fails in both directions.  `ws.onclose`
reads the `retryCount` captured by the `connectWebSocket` closure that
created its socket, and the reconnect timeout calls back into that same
closure, so along a reconnect chain the guard always sees the start-time
value 0: after `n` transient closures the session has opened `n + 1`
connection attempts and fired no `onError`, the state counter has grown to
`n` — exceeding `maxAttempts` for `n > MAX_RETRIES`, as the concrete
`MAX_RETRIES + 1`-round run shows — the status still reads "Connection
lost. Reconnecting... (1/3)", and the "Connection failed. Please try
again." branch is never reached along the chain: retries are unbounded and
no terminal "retries exhausted" failure is ever reported. -/
theorem c3_unbounded_retries_amended :
    (∀ n : Nat,
        (FaceReg.run FaceReg.regInit (FaceReg.reconnectChain n)).1.retryCount = n ∧
        countOpenedAttempt (FaceReg.run FaceReg.regInit (FaceReg.reconnectChain n)).2 = n + 1 ∧
        countCbError (FaceReg.run FaceReg.regInit (FaceReg.reconnectChain n)).2 = 0) ∧
    (∀ n : Nat,
        (FaceReg.run FaceReg.regInit (FaceReg.reconnectChain (n + 1))).1.status =
          "Connection lost. Reconnecting... (1/3)" ∧
        (FaceReg.run FaceReg.regInit (FaceReg.reconnectChain (n + 1))).1.reconnectPending =
          false) ∧
    (FaceReg.run FaceReg.regInit
        (FaceReg.reconnectChain (FaceReg.MAX_RETRIES + 1))).1.retryCount >
      FaceReg.MAX_RETRIES ∧
    (FaceReg.run FaceReg.regInit
        (FaceReg.reconnectChain (FaceReg.MAX_RETRIES + 1))).1.wsReady = WsReady.connecting := by
  refine ⟨fun n => ?_, fun n => ?_, by decide, by decide⟩
  · obtain ⟨h1, h2, h3, h4, h5, h6⟩ := FaceReg.chain_spec n
    exact ⟨h4, h5, h6⟩
  · obtain ⟨h1, h2, h3, h4, h5, h6⟩ := FaceReg.chain_spec n
    rw [FaceReg.reconnectChain, FaceReg.run_append, FaceReg.round_eq _ h1 h2 h3]
    exact ⟨FaceReg.reconnecting_status_eq, rfl⟩

/-- Claim C4 counterexample: a close with the normal code 1000 on a
not-yet-successful session schedules a reconnect — the claim's "only
non-1000, non-terminal codes are eligible for retry" is false on the
code. -/
theorem c4_counterexample :
    (FaceReg.run FaceReg.regInit [.startCall, .close 1000]).1.reconnectPending = true := by
  decide

/-- Claim C4 (amended): a close with code 4004 (and 4003 in verification)
goes straight to a terminal error state without scheduling any reconnect
and without touching the retry counter; every other close code — including
the normal code 1000 — schedules a reconnect whenever `success` is false
and `retryCount < MAX_RETRIES`. -/
theorem c4_terminal_codes_amended :
    (∀ s : FaceReg.St,
        (FaceReg.regOnClose s 4004).1.retryCount = s.retryCount ∧
        (FaceReg.regOnClose s 4004).1.reconnectPending = s.reconnectPending ∧
        (FaceReg.regOnClose s 4004).1.error = some "User not found" ∧
        (FaceReg.regOnClose s 4004).1.connectionState = ConnState.disconnected) ∧
    (∀ (s : FaceReg.St) (code : Nat),
        (FaceReg.regOnClose s code).1.retryCount = s.retryCount ∧
        (FaceReg.regOnClose s code).1.reconnectPending =
          (if code = 4004 then s.reconnectPending
           else if s.success = false ∧ s.retryCount < FaceReg.MAX_RETRIES then true
           else s.reconnectPending)) ∧
    (∀ v : FaceVerif.VSt,
        (FaceVerif.verifOnClose v 4003).1.retryCount = v.retryCount ∧
        (FaceVerif.verifOnClose v 4003).1.reconnectPending = v.reconnectPending ∧
        (FaceVerif.verifOnClose v 4003).1.error =
          some "No face registration found. Please register your face first." ∧
        (FaceVerif.verifOnClose v 4003).1.connectionState = ConnState.disconnected ∧
        (FaceVerif.verifOnClose v 4004).1.retryCount = v.retryCount ∧
        (FaceVerif.verifOnClose v 4004).1.reconnectPending = v.reconnectPending ∧
        (FaceVerif.verifOnClose v 4004).1.error = some "User not found") := by
  refine ⟨fun s => ⟨rfl, rfl, rfl, rfl⟩, fun s code => ?_, fun v => ⟨rfl, rfl, rfl, rfl, rfl, rfl, rfl⟩⟩
  by_cases h4 : code = 4004
  · subst h4
    simp [FaceReg.regOnClose, FaceReg.regCloseCommon]
  · by_cases hr : s.success = false ∧ s.retryCount < FaceReg.MAX_RETRIES
    · simp [FaceReg.regOnClose, FaceReg.regCloseCommon, h4, hr]
    · simp [FaceReg.regOnClose, FaceReg.regCloseCommon, h4, hr]

/-- Claim C5 counterexample: after the transport opens but before any
`connected` handshake event, the heartbeat timer is already armed — the
claim's "timers are armed only while the handshake has completed" is
false on the code. -/
theorem c5_counterexample :
    (FaceReg.run FaceReg.regInit [.startCall, .wsOpen]).1.heartbeatArmed = true ∧
    (FaceReg.run FaceReg.regInit [.startCall, .wsOpen]).1.handshake = false := by
  decide

/-- Claim C5 (amended): the heartbeat timer is armed by `ws.onopen`
(before the handshake) and is disarmed by every run of `ws.onclose`; the
capture timer is armed exactly by the `connected` handshake event and
disarmed by the completion event (via `stopStreaming`), but it is NOT
disarmed by `ws.onclose` — it survives transport close (shown on a
concrete post-close state). -/
theorem c5_timer_arming_amended :
    (∀ (s : FaceReg.St) (code : Nat), (FaceReg.regOnClose s code).1.heartbeatArmed = false) ∧
    (∀ s : FaceReg.St, (FaceReg.regOnOpen s).heartbeatArmed = true) ∧
    (∀ (s : FaceReg.St) (now : Int) (p : Payload),
        (FaceReg.regOnMessage s now p).1.captureArmed =
          (if isCompleteMsg p = true then false
           else s.captureArmed || isConnectedMsg p)) ∧
    (FaceReg.run FaceReg.regInit
        [.startCall, .wsOpen, .msg 0 (.parsed (.connected (some 3))),
         .close 1006]).1.captureArmed = true := by
  refine ⟨?_, fun s => rfl, ?_, by decide⟩
  · intro s code
    unfold FaceReg.regOnClose
    split_ifs <;> rfl
  · intro s now p
    match p with
    | .malformed => simp [FaceReg.regOnMessage, isCompleteMsg, isConnectedMsg]
    | .parsed m =>
      cases m with
      | connected rf => simp [FaceReg.regOnMessage, isCompleteMsg, isConnectedMsg]
      | frame_processed ok fc qs asp fconf ss im pt ct ar m =>
        cases ok <;> simp [FaceReg.regOnMessage, isCompleteMsg, isConnectedMsg]
      | spoofing_detected m asp cr =>
        simp [FaceReg.regOnMessage, isCompleteMsg, isConnectedMsg]
      | registration_complete =>
        simp [FaceReg.regOnMessage, FaceReg.stopStreaming, isCompleteMsg, isConnectedMsg]
      | error m cr => simp [FaceReg.regOnMessage, isCompleteMsg, isConnectedMsg]
      | pong ts =>
        cases ts with
        | some t =>
          by_cases ht : t = 0 <;>
            simp [FaceReg.regOnMessage, isCompleteMsg, isConnectedMsg, ht]
        | none => simp [FaceReg.regOnMessage, isCompleteMsg, isConnectedMsg]
      | heartbeat => simp [FaceReg.regOnMessage, isCompleteMsg, isConnectedMsg]
      | timeout_warning m cr => simp [FaceReg.regOnMessage, isCompleteMsg, isConnectedMsg]
      | verification_complete a b c d e f g =>
        simp [FaceReg.regOnMessage, isCompleteMsg, isConnectedMsg]
      | verification_restarted m => simp [FaceReg.regOnMessage, isCompleteMsg, isConnectedMsg]
      | unknown => simp [FaceReg.regOnMessage, isCompleteMsg, isConnectedMsg]

/-- Claim C6 counterexample: with the retry counter at 1, a transport that
merely opens (no `connected` event ever received) resets the counter to
0 — the claim's "reset to 0 only upon receipt of the `connected` server
event" is false on the code. -/
theorem c6_counterexample :
    (FaceReg.run FaceReg.regInit [.startCall, .close 1006, .reconnectFire]).1.retryCount = 1 ∧
    (FaceReg.run FaceReg.regInit
        [.startCall, .close 1006, .reconnectFire, .wsOpen]).1.retryCount = 0 ∧
    (FaceReg.run FaceReg.regInit
        [.startCall, .close 1006, .reconnectFire, .wsOpen]).1.handshake = false := by
  decide

/-- Claim C6 (amended): the retry counter is reset to 0 by `ws.onopen`,
i.e. as soon as the transport opens and before any handshake; the
`connected` handshake handler itself leaves the counter unchanged. -/
theorem c6_retry_reset_amended :
    (∀ s : FaceReg.St, (FaceReg.regOnOpen s).retryCount = 0) ∧
    (∀ (s : FaceReg.St) (now : Int) (rf : Option Nat),
        (FaceReg.regOnMessage s now (.parsed (.connected rf))).1.retryCount = s.retryCount) :=
  ⟨fun _ => rfl, fun _ _ _ => rfl⟩

/-- Claim C7 counterexample: a `pong` with timestamp 200 received at local
time 100 stores latency -100, not max(0, -100) = 0 — the code computes
`Date.now() - timestamp` with no clamping, so reported latency can be
negative under clock skew. -/
theorem c7_counterexample :
    (FaceReg.regOnMessage FaceReg.regInit 100 (.parsed (.pong (some 200)))).1.networkLatency =
      some (-100) ∧ (-100 : Int) ≠ max 0 (-100) := by
  decide

/-- Claim C7 (amended): in both components a `pong{timestamp}` received at
time `now` sets the reported latency to exactly `now - timestamp`
(unclamped, so it may be negative under clock skew; a zero timestamp is
falsy in JS and is ignored), and it changes no other state — latency is
diagnostic-only and never affects state transitions. -/
theorem c7_latency_amended :
    (∀ (s : FaceReg.St) (now t : Int),
        FaceReg.regOnMessage s now (.parsed (.pong (some t))) =
          ((if t = 0 then s else { s with networkLatency := some (now - t) }), [])) ∧
    (∀ (v : FaceVerif.VSt) (now t : Int),
        FaceVerif.verifOnMessage v now (.parsed (.pong (some t))) =
          ((if t = 0 then v else { v with networkLatency := some (now - t) }), [])) := by
  constructor
  · intro s now t
    by_cases ht : t = 0 <;> simp [FaceReg.regOnMessage, ht]
  · intro v now t
    by_cases ht : t = 0 <;> simp [FaceVerif.verifOnMessage, ht]

/-- Claim C8 counterexample: in the `src/unnamed/part_004` variant the
`ws.onmessage` handler has no try/catch, so a malformed payload makes
`JSON.parse` throw past the message-handler boundary (modelled as
`Except.error`). -/
theorem c8_counterexample :
    Part004.part004OnMessage Part004.st4Init .malformed = .error () :=
  rfl

/-- Claim C8 (amended): in `RealTimeFaceRegistration.tsx` the handler is
wrapped in try/catch and has a logging-only default case, so malformed
payloads and unknown types leave the state unchanged and produce no
outputs; but in the `part_004` variant a malformed payload throws past the
`onmessage` boundary for every state. -/
theorem c8_decode_amended :
    (∀ (s : FaceReg.St) (now : Int), FaceReg.regOnMessage s now .malformed = (s, [])) ∧
    (∀ (s : FaceReg.St) (now : Int), FaceReg.regOnMessage s now (.parsed .unknown) = (s, [])) ∧
    (∀ s : Part004.St4, Part004.part004OnMessage s .malformed = .error ()) :=
  ⟨fun _ _ => rfl, fun _ _ => rfl, fun _ => rfl⟩

/-- Claim C9 counterexample: after a session reaches the terminal
"user not found" failure (close code 4004), the media stream is still
held, so a subsequent `stop()` performs an additional resource release —
falsifying "calling it after the Session has already reached a terminal
state performs no additional side effects". -/
theorem c9_counterexample :
    Out.releasedStream ∈
      (FaceReg.step (FaceReg.run FaceReg.regInit
          [.startCall, .wsOpen, .msg 0 (.parsed (.connected (some 3))), .close 4004]).1
        Ev.stopCall).2 := by
  decide

/-- Claim C9 (amended): `stopStreaming` is idempotent as a second call —
running it on an already-stopped state changes nothing and produces no
outputs (and its try/catch means it never raises); but calling it after a
terminal failure reached via transport close still releases the
still-held media stream, because terminal entry through `ws.onclose` does
not release resources. -/
theorem c9_stop_idempotent_amended :
    (∀ s : FaceReg.St,
        FaceReg.stopStreaming (FaceReg.stopStreaming s).1 = ((FaceReg.stopStreaming s).1, [])) ∧
    Out.releasedStream ∈
      (FaceReg.step (FaceReg.run FaceReg.regInit
          [.startCall, .wsOpen, .msg 0 (.parsed (.connected (some 3))), .close 4004]).1
        Ev.stopCall).2 := by
  refine ⟨fun s => ?_, by decide⟩
  simp [FaceReg.stopStreaming]

/-- Claim C10 (confirmed): a `frame_processed` event with `success = false`
updates only the status text and the processing-time metric in the
registration component, and additionally attempts-remaining and the
processed-count in the verification component; the collected-frame count,
quality score, anti-spoofing score and similarity score are left
unchanged (the full resulting state is the input state with exactly those
fields updated). -/
theorem c10_frame_failure_effect :
    (∀ (s : FaceReg.St) (now : Int) (fc : Nat) (qs asp fconf ss : Option Int)
        (im : Option Bool) (pt ct : Option Int) (ar : Option Nat) (m : String),
        FaceReg.regOnMessage s now
            (.parsed (.frame_processed false fc qs asp fconf ss im pt ct ar m)) =
          ({ s with status := m, processingTime := pt }, [])) ∧
    (∀ (v : FaceVerif.VSt) (now : Int) (fc : Nat) (qs asp fconf ss : Option Int)
        (im : Option Bool) (pt ct : Option Int) (ar : Option Nat) (m : String),
        FaceVerif.verifOnMessage v now
            (.parsed (.frame_processed false fc qs asp fconf ss im pt ct ar m)) =
          ({ v with status := m, processingTime := pt, attemptsRemaining := ar.getD 0
                    processedCount := v.processedCount + 1 }, [])) :=
  ⟨fun _ _ _ _ _ _ _ _ _ _ _ _ => rfl, fun _ _ _ _ _ _ _ _ _ _ _ _ => rfl⟩
